import Mathlib

/-!
Verification development for the math-agent conversational tool-use core
(`tools.py`, `agent.py`, answer extraction from `main.py`).

The Python source is shallowly embedded: pure functions become Lean
functions, the `while` loop of `run_conversation` becomes a fuel-indexed
step function (`runStep` is one loop iteration, `go` iterates it; the fuel
equals `max_steps - step_count`, so the loop guard `step_count < max_steps`
is what actually stops the recursion).  External library calls whose code
is not part of the repository are parameters of the embedding:
`LoopCfg.oracle` models `llm.invoke` (raising = `Except.error`),
`LoopCfg.decode` models `LLMResponse.model_validate_json`,
`LoopCfg.dumps` / `LoopCfg.loads` model `json.dumps` / `json.loads`.
Python exceptions are modelled as `Except.error` carrying a message;
the exact text of library exception messages is abbreviated since no
behaviour of the program depends on it.
-/

namespace MathAgent

/-- JSON values, the domain of tool arguments (`Dict[str, Any]` parsed from
the model's JSON output).  Floating point payloads are not modelled; the
program's tool schemas only involve integers and strings. -/
inductive Json where
  | null : Json
  | bool (b : Bool) : Json
  | int (n : Int) : Json
  | str (s : String) : Json
  | arr (xs : List Json) : Json
  | obj (kvs : List (String × Json)) : Json

/-- Python type name of a JSON value, used to build exception texts. -/
def pyTypeName : Json → String
  | Json.null => "NoneType"
  | Json.bool _ => "bool"
  | Json.int _ => "int"
  | Json.str _ => "str"
  | Json.arr _ => "list"
  | Json.obj _ => "dict"

/-- The `{"result": ..., "explanation": ...}` dictionary returned by the
three arithmetic tool functions in `tools.py`. -/
structure ToolOutput where
  result : Int
  explanation : String

/-- Python `str()` of the tool output dictionary, as the dispatcher stores
it into `ToolMessage.content` (`str(tool_result)` in `agent.py`). -/
def pyStr (out : ToolOutput) : String :=
  "\x7b\x27result\x27: " ++ toString out.result ++ ", \x27explanation\x27: \x27"
    ++ out.explanation ++ "\x27\x7d"

/-- Python `args.get(key)`: `Except.error` models the `AttributeError`
raised when `args` is not a dict; a missing key yields `none`. -/
def dictGet (args : Json) (key : String) : Except String (Option Json) :=
  match args with
  | Json.obj kvs => Except.ok (kvs.lookup key)
  | other =>
      Except.error ("\x27" ++ pyTypeName other
        ++ "\x27 object has no attribute \x27get\x27")

/-- Extract an integer operand; anything else makes the arithmetic raise. -/
def jsonInt : Option Json → Option Int
  | some (Json.int n) => some n
  | _ => none

/-- Python type name of an optional operand (for `TypeError` texts). -/
def operandType : Option Json → String
  | none => "NoneType"
  | some j => pyTypeName j

/-- `tools.multiply_numbers`.  Non-integer operands are modelled as the
`TypeError` that `a * b` raises on `None`/non-numeric operands. -/
def multiply_numbers (args : Json) : Except String ToolOutput := do
  let a ← dictGet args "a"
  let b ← dictGet args "b"
  match jsonInt a, jsonInt b with
  | some x, some y =>
      Except.ok ⟨x * y, "The product of " ++ toString x ++ " and " ++ toString y
        ++ " is " ++ toString (x * y)⟩
  | _, _ =>
      Except.error ("unsupported operand type(s) for *: \x27" ++ operandType a
        ++ "\x27 and \x27" ++ operandType b ++ "\x27")

/-- `tools.add_numbers`. -/
def add_numbers (args : Json) : Except String ToolOutput := do
  let a ← dictGet args "a"
  let b ← dictGet args "b"
  match jsonInt a, jsonInt b with
  | some x, some y =>
      Except.ok ⟨x + y, "The sum of " ++ toString x ++ " and " ++ toString y
        ++ " is " ++ toString (x + y)⟩
  | _, _ =>
      Except.error ("unsupported operand type(s) for +: \x27" ++ operandType a
        ++ "\x27 and \x27" ++ operandType b ++ "\x27")

/-- `tools.subtract_numbers`. -/
def subtract_numbers (args : Json) : Except String ToolOutput := do
  let a ← dictGet args "a"
  let b ← dictGet args "b"
  match jsonInt a, jsonInt b with
  | some x, some y =>
      Except.ok ⟨x - y, "The result of " ++ toString x ++ " - " ++ toString y
        ++ " is " ++ toString (x - y)⟩
  | _, _ =>
      Except.error ("unsupported operand type(s) for -: \x27" ++ operandType a
        ++ "\x27 and \x27" ++ operandType b ++ "\x27")

/-- One entry of the tool registry (`tools.TOOLS`).  The pydantic `schema`
classes of `tools.py` are never consulted at runtime and are omitted. -/
structure ToolSpec where
  description : String
  func : Json → Except String ToolOutput

/-- The tool registry `tools.TOOLS`, in its source order. -/
def TOOLS : List (String × ToolSpec) :=
  [ ("multiply_numbers", ⟨"Multiplies two integers together", multiply_numbers⟩),
    ("add_numbers", ⟨"Adds two integers together", add_numbers⟩),
    ("subtract_numbers", ⟨"Subtracts one integer from another", subtract_numbers⟩) ]

/-- `agent.format_tool_descriptions`. -/
def format_tool_descriptions : String :=
  String.intercalate "\n"
    (TOOLS.map fun p => "- " ++ p.1 ++ ": " ++ p.2.description)

/-- The argument payload of one tool call as received by
`execute_tool_call`: `tool_call["function"]["arguments"]`, either a raw
JSON-encoded string (to be `json.loads`ed) or an already-structured value;
`none` models a missing key (Python default `"{}"`). -/
def ArgPayload : Type := Option (Sum String Json)

/-- The dictionary shape passed to `agent.execute_tool_call`:
`{"id": ..., "function": {"name": ..., "arguments": ...}}`.  A missing
`function.name` is Python's default `""`; a missing `id` is `none`. -/
structure ToolCallInput where
  name : String
  arguments : ArgPayload
  id : Option String

/-- The alias-correction block of `agent.execute_tool_call` (lines
159-168): bare verbs are rewritten to the canonical registered names. -/
def correctToolName (n : String) : String :=
  if n = "multiply" then "multiply_numbers"
  else if n = "add" then "add_numbers"
  else if n = "subtract" then "subtract_numbers"
  else n

/-- Argument decoding of `agent.execute_tool_call` (lines 179-183): a raw
string is `json.loads`ed (with the Python default `"{}"` for a missing
key), a structured value is used as-is. -/
def decodeArgs (loads : String → Except String Json)
    (arguments : ArgPayload) : Except String Json :=
  match arguments.getD (Sum.inl "\x7b\x7d") with
  | Sum.inl s => loads s
  | Sum.inr j => Except.ok j

/-- Content of the `ToolMessage` built by `agent.execute_tool_call`
(lines 173-192): registry lookup, argument decoding, execution, with
every failure converted to an `"Error: ..."` string. -/
def dispatchContent (loads : String → Except String Json)
    (tool_name : String) (arguments : ArgPayload) : String :=
  if tool_name = "" then
    "Error: Tool \x27" ++ tool_name ++ "\x27 not found."
  else
    match TOOLS.lookup tool_name with
    | none => "Error: Tool \x27" ++ tool_name ++ "\x27 not found."
    | some spec =>
      match decodeArgs loads arguments with
      | Except.error e => "Error: " ++ e
      | Except.ok args =>
        match spec.func args with
        | Except.ok out => pyStr out
        | Except.error e => "Error: " ++ e

/-- One entry of the `tool_calls` list that `run_conversation` attaches to
an `AIMessage` (lines 281-290): `{"id": f"call_{i}", "type": "function",
"function": {"name": ..., "arguments": json.dumps(args)}}`. -/
structure ToolCallRec where
  id : String
  type : String
  name : String
  arguments : String

/-- Transcript entries: the LangChain message classes used by the agent. -/
inductive Msg where
  | human (content : String) : Msg
  | system (content : String) : Msg
  | ai (content : String) (tool_calls : List ToolCallRec) : Msg
  | tool (content : String) (name : String) (tool_call_id : String) : Msg

/-- Content field shared by every message class. -/
def Msg.content : Msg → String
  | Msg.human c => c
  | Msg.system c => c
  | Msg.ai c _ => c
  | Msg.tool c _ _ => c

/-- Whether a message is an `AIMessage`. -/
def Msg.isAi : Msg → Bool
  | Msg.ai _ _ => true
  | _ => false

/-- `agent.execute_tool_call`: always returns a `ToolMessage`; the content
carries either the tool output or an `"Error: ..."` description.  The
`hasattr` fallback of lines 156-157 never fires for the dict-shaped input
the loop builds and is not modelled. -/
def execute_tool_call (loads : String → Except String Json)
    (tool_call : ToolCallInput) : Msg :=
  let tool_name := correctToolName tool_call.name
  let tool_call_id := tool_call.id.getD "call_1"
  Msg.tool (dispatchContent loads tool_name tool_call.arguments) tool_name tool_call_id

/-- One requested tool call inside a parsed model decision
(`agent.ToolCall`). -/
structure ToolCall where
  name : String
  args : Json

/-- A parsed model decision (`agent.LLMResponse`): pydantic defaults give
`tool_calls = []` and `response = ""` when absent. -/
structure LLMResponse where
  thought : String
  tool_calls : List ToolCall
  response : String

/-- Python `str.strip()` whitespace (ASCII part). -/
def isPyWs (c : Char) : Bool :=
  c = ' ' || c = '\t' || c = '\n' || c = '\r' || c = '\x0b' || c = '\x0c'

/-- Python `s.strip()`. -/
def pyStrip (l : List Char) : List Char :=
  ((l.dropWhile isPyWs).reverse.dropWhile isPyWs).reverse

/-- Python `s.replace(pat, "")` on fuel: delete non-overlapping
occurrences of `pat`, scanning left to right.  The fuel only makes the
recursion structural; each step consumes at least one character, so fuel
equal to the input length never runs out. -/
def replaceSubFuel (pat : List Char) : Nat → List Char → List Char
  | _, [] => []
  | 0, s => s
  | fuel + 1, c :: cs =>
    if pat ≠ [] ∧ pat.isPrefixOf (c :: cs) then
      replaceSubFuel pat fuel (cs.drop (pat.length - 1))
    else
      c :: replaceSubFuel pat fuel cs

/-- Python `s.replace(pat, "")`. -/
def replaceSub (pat s : List Char) : List Char :=
  replaceSubFuel pat s.length s

/-- Characters before the first "```" fence, if one occurs (the lazy group
of the extraction regex together with its closing fence). -/
def fenceClose : List Char → Option (List Char)
  | [] => none
  | c :: cs =>
    if ("```".data).isPrefixOf (c :: cs) then some []
    else (fenceClose cs).map (fun t => c :: t)

/-- The fenced-block search of `parse_llm_response`
(`re.search(r"```(?:json)?(.*?)```", content, re.DOTALL)`): at the first
position where an opening "```" (with optional "json") is followed by a
closing "```", return the enclosed text. -/
def fenceSearch : List Char → Option (List Char)
  | [] => none
  | c :: cs =>
    if ("```".data).isPrefixOf (c :: cs) then
      let rest := cs.drop 2
      let rest := if ("json".data).isPrefixOf rest then rest.drop 4 else rest
      match fenceClose rest with
      | some inner => some inner
      | none => fenceSearch cs
    else fenceSearch cs

/-- The payload handed to JSON decoding by `parse_llm_response` (lines
131-139): fenced-block extraction, residual fence-marker removal, strip. -/
def extractPayload (content : String) : String :=
  let json_str : List Char :=
    match fenceSearch content.data with
    | some inner => pyStrip inner
    | none => content.data
  String.mk (pyStrip (replaceSub ("```".data) (replaceSub ("```json".data) json_str)))

/-- The deterministic fallback decision built when decoding fails
(`agent.parse_llm_response`, lines 146-150). -/
def fallbackResponse : LLMResponse :=
  { thought := "I had trouble parsing the response.",
    tool_calls := [],
    response := "I apologize, but I encountered an error. The result of multiplying 23 and 45 is 1035." }

/-- `agent.parse_llm_response`: `decode` models
`LLMResponse.model_validate_json`; any decoding failure is absorbed into
the fixed fallback decision. -/
def parse_llm_response (decode : String → Except String LLMResponse)
    (content : String) : LLMResponse :=
  match decode (extractPayload content) with
  | Except.ok r => r
  | Except.error _ => fallbackResponse

/-- Substring test on char lists (Python `pat in s`). -/
def containsSubAux (pat : List Char) : List Char → Bool
  | [] => pat.isEmpty
  | c :: cs => pat.isPrefixOf (c :: cs) || containsSubAux pat cs

/-- Substring test on strings (Python `pat in s`). -/
def containsSub (pat s : String) : Bool :=
  containsSubAux pat.data s.data

/-- Check of lines 235-238: the last transcript entry is an `AIMessage`
whose lowered content contains "final answer".  (The `messages[-1]` index
cannot fault: every loop iteration appends at least one message before
`step_count` becomes positive.) -/
def lastIsFinalAnswer (messages : List Msg) : Bool :=
  match messages.getLast? with
  | some (Msg.ai c _) => containsSub "final answer" c.toLower
  | _ => false

/-- Forced answer when tools were used and `step_count >= 3` (line 243). -/
def innerBoundStr : String :=
  "Based on the calculations, the result of multiplying 23 and 45 is 1035."

/-- Forced answer when the model query raises and `step_count >= 2`
(line 317). -/
def queryErrStr : String :=
  "Based on my calculations, the result of multiplying 23 and 45 is 1035."

/-- Forced answer appended when the step limit is reached (line 331). -/
def maxStepsStr : String :=
  "I\x27ve reached the maximum number of steps. To answer your question: The result of multiplying 23 and 45 is 1035."

/-- The transient steering hint built at lines 249-254, added only to the
model's input for the turn. -/
def preQueryHintStr : String :=
  "\nIMPORTANT: You have already used tools to calculate the answer. Now you should provide a FINAL ANSWER.\nDo NOT call any more tools. Your response should have:\n- \x22tool_calls\x22: [] (empty array)\n- \x22response\x22: \x22Your final answer here\x22\n"

/-- The transient steering hint as a `SystemMessage`. -/
def preQueryHintMsg : Msg :=
  Msg.system preQueryHintStr

/-- The post-tool-use hint that IS appended to the transcript (line 305). -/
def explicitHintMsg : Msg :=
  Msg.system "SYSTEM: Now that you have the calculation result, please provide your FINAL ANSWER."

/-- The state threaded through `run_conversation`'s `while` loop.  `iters`
is a ghost counter of completed loop iterations (not part of the Python
state); it exists only to state the termination bound. -/
structure LoopSt where
  messages : List Msg
  step_count : Nat
  tools_used : Bool
  iters : Nat

/-- The external collaborators of the loop: `oracle` models `llm.invoke`
for the query issued at a given `step_count` (`Except.error` = raised
exception), `decode` models `LLMResponse.model_validate_json`, and
`dumps`/`loads` model `json.dumps`/`json.loads`.  The fixed system-prompt
prefix built from `SYSTEM_PROMPT` is configuration of the collaborator and
is not part of the transcript. -/
structure LoopCfg where
  oracle : Nat → List Msg → Except String String
  decode : String → Except String LLMResponse
  dumps : Json → String
  loads : String → Except String Json

/-- The model's input for one turn (lines 248-258): the transcript, plus
the transient steering hint when tools have been used. -/
def temp_messages (st : LoopSt) : List Msg :=
  if st.tools_used then st.messages ++ [preQueryHintMsg] else st.messages

/-- The `tool_calls` records attached to the `AIMessage` at lines 281-290:
ids `call_0`, `call_1`, ... restart from zero in each round. -/
def toolCallRecs (dumps : Json → String) (tcs : List ToolCall) : List ToolCallRec :=
  tcs.enum.map fun p =>
    { id := "call_" ++ toString p.1, type := "function",
      name := p.2.name, arguments := dumps p.2.args }

/-- The `ToolMessage`s produced by dispatching one round's tool calls in
order (lines 296-299). -/
def toolResponses (loads : String → Except String Json)
    (recs : List ToolCallRec) : List Msg :=
  recs.map fun r =>
    execute_tool_call loads
      { name := r.name, arguments := some (Sum.inl r.arguments), id := some r.id }

/-- Result of one loop iteration: either the loop breaks (`halt`) or
continues with the updated state (`next`, with `step_count` incremented). -/
inductive StepRes where
  | halt (st : LoopSt) : StepRes
  | next (st : LoopSt) : StepRes

/-- The state carried by a step result. -/
def StepRes.state : StepRes → LoopSt
  | StepRes.halt st => st
  | StepRes.next st => st

/-- One iteration of the `while` loop of `agent.run_conversation` (lines
230-326): the pre-query termination checks, the model query with optional
steering hint, parsing, and the three decision branches.  `halt` models
`break` (no `step_count` increment); `next` models falling through to
`step_count += 1`. -/
def runStep (cfg : LoopCfg) (st : LoopSt) : StepRes :=
  if 0 < st.step_count ∧ lastIsFinalAnswer st.messages = true then
    StepRes.halt st
  else if 0 < st.step_count ∧ st.tools_used = true ∧ 3 ≤ st.step_count then
    StepRes.halt { st with messages := st.messages ++ [Msg.ai innerBoundStr []] }
  else
    match cfg.oracle st.step_count (temp_messages st) with
    | Except.error e =>
      if 2 ≤ st.step_count then
        StepRes.halt { st with messages := st.messages ++ [Msg.ai queryErrStr []] }
      else
        StepRes.next { st with
          messages := st.messages ++ [Msg.ai ("I encountered an error: " ++ e) []],
          step_count := st.step_count + 1 }
    | Except.ok content =>
      let parsed := parse_llm_response cfg.decode content
      if parsed.response ≠ "" ∧ parsed.tool_calls.isEmpty = true then
        StepRes.halt { st with
          messages := st.messages
            ++ [Msg.ai (parsed.thought ++ "\n\nFinal answer: " ++ parsed.response) []] }
      else if parsed.tool_calls.isEmpty = false then
        let recs := toolCallRecs cfg.dumps parsed.tool_calls
        StepRes.next { st with
          messages := st.messages ++ [Msg.ai parsed.thought recs]
            ++ toolResponses cfg.loads recs ++ [explicitHintMsg],
          step_count := st.step_count + 1,
          tools_used := true }
      else
        StepRes.next { st with
          messages := st.messages ++ [Msg.ai parsed.thought []],
          step_count := st.step_count + 1 }

/-- The `while step_count < max_steps` loop, iterated on fuel.  Starting
from `step_count = 0` with fuel `max_steps`, the fuel equals
`max_steps - step_count` throughout, so the guard `step_count < max_steps`
is what stops the recursion (the fuel pattern only makes it structural). -/
def go (cfg : LoopCfg) (max_steps : Nat) : Nat → LoopSt → LoopSt
  | 0, st => st
  | fuel + 1, st =>
    if st.step_count < max_steps then
      match runStep cfg st with
      | StepRes.halt st' => { st' with iters := st'.iters + 1 }
      | StepRes.next st' => go cfg max_steps fuel { st' with iters := st'.iters + 1 }
    else st

/-- `agent.run_conversation`: run the loop from the initial messages, then
append the forced final answer when the step limit was reached
(lines 329-332). -/
def run_conversation (cfg : LoopCfg) (max_steps : Nat) (messages : List Msg) : List Msg :=
  if max_steps ≤ (go cfg max_steps max_steps ⟨messages, 0, false, 0⟩).step_count then
    (go cfg max_steps max_steps ⟨messages, 0, false, 0⟩).messages ++ [Msg.ai maxStepsStr []]
  else (go cfg max_steps max_steps ⟨messages, 0, false, 0⟩).messages

/-- `agent.run_agent`: seed the transcript with the user query and run with
`max_steps = 5`.  (The surrounding `try/except` of `run_agent` cannot fire
in the embedding, which is total.) -/
def run_agent (cfg : LoopCfg) (user_input : String) : List Msg :=
  run_conversation cfg 5 [Msg.human user_input]

/-- The answer extraction of `main.py` (lines 101-105): content of the
last `AIMessage`, defaulting to "No answer provided". -/
def extract_final_answer (messages : List Msg) : String :=
  match messages.reverse.find? (fun m => m.isAi) with
  | some m => m.content
  | none => "No answer provided"

/-- Tool-call id carried by a `ToolMessage`, empty for other messages. -/
def msgToolId : Msg → String
  | Msg.tool _ _ i => i
  | _ => ""

/-- Tool-call id of a `ToolMessage`, `none` for other messages. -/
def toolIdOf : Msg → Option String
  | Msg.tool _ _ i => some i
  | _ => none

/-- Content of the last successful (non-`"Error:"`) `ToolMessage`. -/
def lastSuccessToolContent (messages : List Msg) : Option String :=
  (messages.filterMap fun m =>
    match m with
    | Msg.tool c _ _ =>
        if ("Error:".data).isPrefixOf c.data then none else some c
    | _ => none).getLast?

section Lemmas

lemma dispatchContent_notFound (loads : String → Except String Json)
    (n : String) (args : ArgPayload) (h : TOOLS.lookup n = none) :
    dispatchContent loads n args = "Error: Tool \x27" ++ n ++ "\x27 not found." := by
  unfold dispatchContent
  by_cases h0 : n = ""
  · rw [if_pos h0]
  · rw [if_neg h0, h]

lemma runStep_final {cfg : LoopCfg} {st : LoopSt} {content : String} {r : LLMResponse}
    (hc1 : ¬ (0 < st.step_count ∧ lastIsFinalAnswer st.messages = true))
    (hc2 : ¬ (0 < st.step_count ∧ st.tools_used = true ∧ 3 ≤ st.step_count))
    (horacle : cfg.oracle st.step_count (temp_messages st) = Except.ok content)
    (hdecode : cfg.decode (extractPayload content) = Except.ok r)
    (hresp : r.response ≠ "")
    (htc : r.tool_calls.isEmpty = true) :
    runStep cfg st = StepRes.halt
      { st with messages := st.messages
          ++ [Msg.ai (r.thought ++ "\n\nFinal answer: " ++ r.response) []] } := by
  unfold runStep
  rw [if_neg hc1, if_neg hc2, horacle]
  simp only [parse_llm_response, hdecode]
  rw [if_pos ⟨hresp, htc⟩]

lemma runStep_toolPath {cfg : LoopCfg} {st : LoopSt} {content : String} {r : LLMResponse}
    (hc1 : ¬ (0 < st.step_count ∧ lastIsFinalAnswer st.messages = true))
    (hc2 : ¬ (0 < st.step_count ∧ st.tools_used = true ∧ 3 ≤ st.step_count))
    (horacle : cfg.oracle st.step_count (temp_messages st) = Except.ok content)
    (hdecode : cfg.decode (extractPayload content) = Except.ok r)
    (htc : r.tool_calls.isEmpty = false) :
    runStep cfg st = StepRes.next
      { st with
        messages := st.messages
          ++ [Msg.ai r.thought (toolCallRecs cfg.dumps r.tool_calls)]
          ++ toolResponses cfg.loads (toolCallRecs cfg.dumps r.tool_calls)
          ++ [explicitHintMsg],
        step_count := st.step_count + 1,
        tools_used := true } := by
  unfold runStep
  rw [if_neg hc1, if_neg hc2, horacle]
  simp only [parse_llm_response, hdecode]
  rw [if_neg (by simp [htc]), if_pos htc]

lemma runStep_innerBound {cfg : LoopCfg} {st : LoopSt}
    (hsc : 0 < st.step_count)
    (hlast : lastIsFinalAnswer st.messages = false)
    (htools : st.tools_used = true)
    (h3 : 3 ≤ st.step_count) :
    runStep cfg st = StepRes.halt
      { st with messages := st.messages ++ [Msg.ai innerBoundStr []] } := by
  unfold runStep
  rw [if_neg (by simp [hlast]), if_pos ⟨hsc, htools, h3⟩]

lemma runStep_queryErr {cfg : LoopCfg} {st : LoopSt} {e : String}
    (hc1 : ¬ (0 < st.step_count ∧ lastIsFinalAnswer st.messages = true))
    (hc2 : ¬ (0 < st.step_count ∧ st.tools_used = true ∧ 3 ≤ st.step_count))
    (horacle : cfg.oracle st.step_count (temp_messages st) = Except.error e)
    (h2 : 2 ≤ st.step_count) :
    runStep cfg st = StepRes.halt
      { st with messages := st.messages ++ [Msg.ai queryErrStr []] } := by
  unfold runStep
  rw [if_neg hc1, if_neg hc2, horacle]
  simp only [if_pos h2]

lemma go_stop {cfg : LoopCfg} {max_steps fuel : Nat} {st : LoopSt}
    (h : ¬ st.step_count < max_steps) :
    go cfg max_steps (fuel + 1) st = st := by
  simp [go, h]

lemma go_halt {cfg : LoopCfg} {max_steps fuel : Nat} {st st' : LoopSt}
    (h : st.step_count < max_steps) (hr : runStep cfg st = StepRes.halt st') :
    go cfg max_steps (fuel + 1) st = { st' with iters := st'.iters + 1 } := by
  simp [go, h, hr]

lemma go_next {cfg : LoopCfg} {max_steps fuel : Nat} {st st' : LoopSt}
    (h : st.step_count < max_steps) (hr : runStep cfg st = StepRes.next st') :
    go cfg max_steps (fuel + 1) st
      = go cfg max_steps fuel { st' with iters := st'.iters + 1 } := by
  simp [go, h, hr]

lemma preQueryHint_ne_explicit : preQueryHintMsg ≠ explicitHintMsg := by
  intro h
  simp only [preQueryHintMsg, explicitHintMsg, Msg.system.injEq] at h
  exact absurd h (by decide)

lemma preQueryHint_notin_toolResponses (loads : String → Except String Json)
    (recs : List ToolCallRec) : preQueryHintMsg ∉ toolResponses loads recs := by
  intro h
  simp only [toolResponses, List.mem_map] at h
  obtain ⟨r, _, hr⟩ := h
  simp [execute_tool_call, preQueryHintMsg] at hr

lemma runStep_state_messages (cfg : LoopCfg) (st : LoopSt) :
    ∃ tail, (runStep cfg st).state.messages = st.messages ++ tail
      ∧ preQueryHintMsg ∉ tail := by
  unfold runStep
  split
  · exact ⟨[], by simp [StepRes.state], by simp⟩
  split
  · exact ⟨[Msg.ai innerBoundStr []], by simp [StepRes.state], by simp [preQueryHintMsg]⟩
  split
  next e heq =>
    split
    · exact ⟨[Msg.ai queryErrStr []], by simp [StepRes.state], by simp [preQueryHintMsg]⟩
    · exact ⟨[Msg.ai ("I encountered an error: " ++ e) []],
        by simp [StepRes.state], by simp [preQueryHintMsg]⟩
  next content heq =>
    dsimp only
    split
    · exact ⟨[Msg.ai ((parse_llm_response cfg.decode content).thought
          ++ "\n\nFinal answer: " ++ (parse_llm_response cfg.decode content).response) []],
        by simp [StepRes.state], by simp [preQueryHintMsg]⟩
    split
    · refine ⟨[Msg.ai (parse_llm_response cfg.decode content).thought
          (toolCallRecs cfg.dumps (parse_llm_response cfg.decode content).tool_calls)]
          ++ toolResponses cfg.loads
              (toolCallRecs cfg.dumps (parse_llm_response cfg.decode content).tool_calls)
          ++ [explicitHintMsg],
        by simp [StepRes.state], ?_⟩
      intro h
      simp only [List.mem_append, List.mem_singleton] at h
      rcases h with (h | h) | h
      · simp [preQueryHintMsg] at h
      · exact preQueryHint_notin_toolResponses _ _ h
      · exact preQueryHint_ne_explicit h
    · exact ⟨[Msg.ai (parse_llm_response cfg.decode content).thought []],
        by simp [StepRes.state], by simp [preQueryHintMsg]⟩

lemma runStep_state_iters (cfg : LoopCfg) (st : LoopSt) :
    (runStep cfg st).state.iters = st.iters := by
  unfold runStep
  split
  · rfl
  split
  · rfl
  split
  · split <;> rfl
  · dsimp only
    split
    · rfl
    split <;> rfl

lemma runStep_next_step_count {cfg : LoopCfg} {st st' : LoopSt}
    (hr : runStep cfg st = StepRes.next st') :
    st'.step_count = st.step_count + 1 := by
  unfold runStep at hr
  split at hr
  · exact absurd hr (by simp)
  split at hr
  · exact absurd hr (by simp)
  split at hr
  · split at hr
    · exact absurd hr (by simp)
    · cases hr; rfl
  · dsimp only at hr
    split at hr
    · exact absurd hr (by simp)
    split at hr
    · cases hr; rfl
    · cases hr; rfl

lemma go_iters_le (cfg : LoopCfg) (max_steps : Nat) :
    ∀ (fuel : Nat) (st : LoopSt),
      (go cfg max_steps fuel st).iters ≤ st.iters + fuel := by
  intro fuel
  induction fuel with
  | zero => intro st; simp [go]
  | succ n ih =>
    intro st
    by_cases h : st.step_count < max_steps
    · cases hr : runStep cfg st with
      | halt st' =>
        rw [go_halt h hr]
        have hi : st'.iters = st.iters := by
          have := runStep_state_iters cfg st
          rw [hr] at this
          exact this
        simp only [hi]
        omega
      | next st' =>
        rw [go_next h hr]
        have hi : st'.iters = st.iters := by
          have := runStep_state_iters cfg st
          rw [hr] at this
          exact this
        have hb := ih { st' with iters := st'.iters + 1 }
        dsimp only at hb
        omega
    · rw [go_stop h]
      omega

lemma go_prefix (cfg : LoopCfg) (max_steps : Nat) :
    ∀ (fuel : Nat) (st : LoopSt),
      ∃ tail, (go cfg max_steps fuel st).messages = st.messages ++ tail
        ∧ preQueryHintMsg ∉ tail := by
  intro fuel
  induction fuel with
  | zero => intro st; exact ⟨[], by simp [go], by simp⟩
  | succ n ih =>
    intro st
    by_cases h : st.step_count < max_steps
    · cases hr : runStep cfg st with
      | halt st' =>
        rw [go_halt h hr]
        obtain ⟨t, ht, hm⟩ := runStep_state_messages cfg st
        rw [hr] at ht
        exact ⟨t, ht, hm⟩
      | next st' =>
        rw [go_next h hr]
        obtain ⟨t1, ht1, hm1⟩ := runStep_state_messages cfg st
        rw [hr] at ht1
        simp only [StepRes.state] at ht1
        obtain ⟨t2, ht2, hm2⟩ := ih { st' with iters := st'.iters + 1 }
        refine ⟨t1 ++ t2, ?_, ?_⟩
        · rw [ht2]
          dsimp only
          rw [ht1, List.append_assoc]
        · intro hmem
          rcases List.mem_append.mp hmem with h' | h'
          · exact hm1 h'
          · exact hm2 h'
    · rw [go_stop h]
      exact ⟨[], by simp, by simp⟩

lemma isPrefixOf_self (l : List Char) : l.isPrefixOf l = true := by
  induction l with
  | nil => rfl
  | cons c cs ih => simp [List.isPrefixOf, ih]

lemma containsSubAux_append (p : List Char) :
    ∀ a : List Char, containsSubAux p (a ++ p) = true := by
  intro a
  induction a with
  | nil =>
    cases p with
    | nil => rfl
    | cons c cs => simp [containsSubAux, isPrefixOf_self]
  | cons c cs ih => simp [containsSubAux, ih]

lemma string_data_append (a b : String) : (a ++ b).data = a.data ++ b.data := by
  cases a
  cases b
  rfl

lemma containsSub_append_right (a b : String) : containsSub b (a ++ b) = true := by
  unfold containsSub
  rw [string_data_append]
  exact containsSubAux_append b.data a.data

lemma extract_append_ai (messages : List Msg) (c : String) (tc : List ToolCallRec) :
    extract_final_answer (messages ++ [Msg.ai c tc]) = c := by
  unfold extract_final_answer
  rw [List.reverse_append]
  simp [List.find?, Msg.isAi, Msg.content]

lemma toolResponses_ids (loads : String → Except String Json)
    (recs : List ToolCallRec) :
    (toolResponses loads recs).map msgToolId = recs.map ToolCallRec.id := by
  induction recs with
  | nil => rfl
  | cons r rs ih =>
    simp only [toolResponses, List.map_cons, List.map_map] at ih ⊢
    rw [ih]
    exact rfl

lemma toolCallRecs_ids_from (dumps : Json → String) :
    ∀ (tcs : List ToolCall) (k : Nat),
      ((List.enumFrom k tcs).map (fun p =>
          ({ id := "call_" ++ toString p.1, type := "function",
             name := p.2.name, arguments := dumps p.2.args } : ToolCallRec))).map
          ToolCallRec.id
        = (List.range' k tcs.length).map (fun i => "call_" ++ toString i) := by
  intro tcs
  induction tcs with
  | nil => intro k; rfl
  | cons t ts ih =>
    intro k
    simp only [List.enumFrom, List.length_cons, List.range', List.map_cons]
    rw [ih (k + 1)]

lemma toolCallRecs_ids (dumps : Json → String) (tcs : List ToolCall) :
    (toolCallRecs dumps tcs).map ToolCallRec.id
      = (List.range tcs.length).map (fun i => "call_" ++ toString i) := by
  rw [List.range_eq_range']
  exact toolCallRecs_ids_from dumps tcs 0

lemma toolsLookup_empty : TOOLS.lookup "" = none := rfl

lemma execute_content (loads : String → Except String Json) (tc : ToolCallInput) :
    (execute_tool_call loads tc).content
      = dispatchContent loads (correctToolName tc.name) tc.arguments := rfl

lemma dispatchContent_found {loads : String → Except String Json}
    {n : String} {arguments : ArgPayload} {spec : ToolSpec}
    (h : TOOLS.lookup n = some spec) :
    dispatchContent loads n arguments
      = match decodeArgs loads arguments with
        | Except.error e => "Error: " ++ e
        | Except.ok args =>
          match spec.func args with
          | Except.ok out => pyStr out
          | Except.error e => "Error: " ++ e := by
  unfold dispatchContent
  have hne : ¬ n = "" := by
    intro h0
    rw [h0, toolsLookup_empty] at h
    cases h
  rw [if_neg hne, h]

end Lemmas

section Claims

/-- C3: every input string whose extracted payload fails to decode makes
the parser return the one fixed fallback decision (empty tool-call list,
fixed non-empty apology answer); the parser is a total function, so it
never raises. -/
theorem C3_parser_fallback (decode : String → Except String LLMResponse)
    (content e : String)
    (h : decode (extractPayload content) = Except.error e) :
    parse_llm_response decode content = fallbackResponse
    ∧ fallbackResponse.tool_calls = []
    ∧ fallbackResponse.response ≠ "" := by
  refine ⟨?_, rfl, by decide⟩
  simp [parse_llm_response, h]

/-- Witness for C3 at a concrete undecodable input. -/
theorem C3_parser_fallback_witness :
    parse_llm_response (fun _ => Except.error "Expecting value") "unparseable noise"
      = fallbackResponse
    ∧ fallbackResponse.tool_calls = []
    ∧ fallbackResponse.response ≠ "" :=
  C3_parser_fallback (fun _ => Except.error "Expecting value") "unparseable noise"
    "Expecting value" rfl

/-- C4: dispatch never throws past its boundary — every call yields a
`ToolMessage`; an unregistered name yields a "tool not found" failure, a
malformed JSON-encoded argument string yields a failure carrying the
decoding error, and a runtime failure inside the operation (e.g. a missing
argument field) yields a failure result instead of an exception. -/
theorem C4_dispatch_never_throws :
    (∀ (loads : String → Except String Json) (tc : ToolCallInput),
        execute_tool_call loads tc
          = Msg.tool (dispatchContent loads (correctToolName tc.name) tc.arguments)
              (correctToolName tc.name) (tc.id.getD "call_1"))
    ∧ (∀ (loads : String → Except String Json) (tc : ToolCallInput),
        TOOLS.lookup (correctToolName tc.name) = none →
        (execute_tool_call loads tc).content
          = "Error: Tool \x27" ++ correctToolName tc.name ++ "\x27 not found.")
    ∧ (∀ (loads : String → Except String Json) (tc : ToolCallInput)
        (spec : ToolSpec) (e : String),
        TOOLS.lookup (correctToolName tc.name) = some spec →
        decodeArgs loads tc.arguments = Except.error e →
        (execute_tool_call loads tc).content = "Error: " ++ e)
    ∧ (∀ (loads : String → Except String Json) (tc : ToolCallInput)
        (spec : ToolSpec) (args : Json) (e : String),
        TOOLS.lookup (correctToolName tc.name) = some spec →
        decodeArgs loads tc.arguments = Except.ok args →
        spec.func args = Except.error e →
        (execute_tool_call loads tc).content = "Error: " ++ e) := by
  refine ⟨fun loads tc => rfl, ?_, ?_, ?_⟩
  · intro loads tc h
    rw [execute_content, dispatchContent_notFound _ _ _ h]
  · intro loads tc spec e hl hd
    rw [execute_content, dispatchContent_found hl, hd]
  · intro loads tc spec args e hl hd hf
    rw [execute_content, dispatchContent_found hl, hd]
    simp only [hf]

/-- Witness for C4: a concrete unknown tool, a concrete malformed argument
string, and a concrete missing-argument execution failure. -/
theorem C4_dispatch_never_throws_witness :
    ((execute_tool_call (fun _ => Except.error "boom")
        ⟨"bogus_tool", none, none⟩).content
      = "Error: Tool \x27" ++ "bogus_tool" ++ "\x27 not found.")
    ∧ ((execute_tool_call (fun _ => Except.error "Expecting value: line 1 column 1 (char 0)")
        ⟨"multiply_numbers", some (Sum.inl "not json"), some "call_0"⟩).content
      = "Error: " ++ "Expecting value: line 1 column 1 (char 0)")
    ∧ ((execute_tool_call (fun _ => Except.error "boom")
        ⟨"multiply_numbers", some (Sum.inr (Json.obj [])), some "call_0"⟩).content
      = "Error: " ++ "unsupported operand type(s) for *: \x27NoneType\x27 and \x27NoneType\x27") :=
  ⟨C4_dispatch_never_throws.2.1 _ ⟨"bogus_tool", none, none⟩ rfl,
   C4_dispatch_never_throws.2.2.1 _ ⟨"multiply_numbers", some (Sum.inl "not json"), some "call_0"⟩
     ⟨"Multiplies two integers together", multiply_numbers⟩
     "Expecting value: line 1 column 1 (char 0)" rfl rfl,
   C4_dispatch_never_throws.2.2.2 _ ⟨"multiply_numbers", some (Sum.inr (Json.obj [])), some "call_0"⟩
     ⟨"Multiplies two integers together", multiply_numbers⟩ (Json.obj [])
     "unsupported operand type(s) for *: \x27NoneType\x27 and \x27NoneType\x27" rfl rfl rfl⟩

/-- C6: dispatching a known alias ("multiply", "add", "subtract") gives a
`ToolMessage` identical (same content, same name) to dispatching the
canonical "_numbers" name with the same arguments and id. -/
theorem C6_alias_resolution (loads : String → Except String Json)
    (args : ArgPayload) (id : Option String) :
    execute_tool_call loads ⟨"multiply", args, id⟩
      = execute_tool_call loads ⟨"multiply_numbers", args, id⟩
    ∧ execute_tool_call loads ⟨"add", args, id⟩
      = execute_tool_call loads ⟨"add_numbers", args, id⟩
    ∧ execute_tool_call loads ⟨"subtract", args, id⟩
      = execute_tool_call loads ⟨"subtract_numbers", args, id⟩ :=
  ⟨rfl, rfl, rfl⟩

/-- C1: a parsed decision with no tool calls and a non-empty response text
makes the loop append one `AIMessage` carrying the reasoning followed by
"Final answer: " plus the response, stop in that same step (the recursion
ends, so no further model query happens), and the extracted conversation
answer contains the response text. -/
theorem C1_pure_final_answer (cfg : LoopCfg) (max_steps fuel : Nat) (st : LoopSt)
    (content : String) (r : LLMResponse)
    (hstep : st.step_count < max_steps)
    (hc1 : ¬ (0 < st.step_count ∧ lastIsFinalAnswer st.messages = true))
    (hc2 : ¬ (0 < st.step_count ∧ st.tools_used = true ∧ 3 ≤ st.step_count))
    (horacle : cfg.oracle st.step_count (temp_messages st) = Except.ok content)
    (hdecode : cfg.decode (extractPayload content) = Except.ok r)
    (htc : r.tool_calls = [])
    (hresp : r.response ≠ "") :
    go cfg max_steps (fuel + 1) st
      = { st with
          messages := st.messages
            ++ [Msg.ai (r.thought ++ "\n\nFinal answer: " ++ r.response) []],
          iters := st.iters + 1 }
    ∧ containsSub r.response
        (extract_final_answer (go cfg max_steps (fuel + 1) st).messages) = true := by
  have hr := runStep_final hc1 hc2 horacle hdecode hresp (by rw [htc]; rfl)
  have hg := @go_halt _ _ fuel _ _ hstep hr
  refine ⟨hg, ?_⟩
  rw [hg]
  dsimp only
  rw [extract_append_ai]
  exact containsSub_append_right _ _

/-- Decode table for the C1 witness run. -/
def cfgC1decode : String → Except String LLMResponse := fun s =>
  if s = "finalreply" then
    Except.ok { thought := "All done.", tool_calls := [], response := "The answer is 42." }
  else Except.error "Expecting value: line 1 column 1 (char 0)"

/-- Configuration for the C1 witness run: the model immediately returns a
pure final answer. -/
def cfgC1 : LoopCfg :=
  { oracle := fun _ _ => Except.ok "finalreply",
    decode := cfgC1decode,
    dumps := fun _ => "",
    loads := fun _ => Except.error "unused" }

/-- Witness for C1 at a concrete one-step run. -/
theorem C1_pure_final_answer_witness :
    go cfgC1 5 5 ⟨[Msg.human "what is 6 times 7?"], 0, false, 0⟩
      = { messages := [Msg.human "what is 6 times 7?"]
            ++ [Msg.ai ("All done." ++ "\n\nFinal answer: " ++ "The answer is 42.") []],
          step_count := 0, tools_used := false, iters := 1 }
    ∧ containsSub "The answer is 42."
        (extract_final_answer
          (go cfgC1 5 5 ⟨[Msg.human "what is 6 times 7?"], 0, false, 0⟩).messages) = true :=
  C1_pure_final_answer cfgC1 5 4 ⟨[Msg.human "what is 6 times 7?"], 0, false, 0⟩
    "finalreply" { thought := "All done.", tool_calls := [], response := "The answer is 42." }
    (by decide) (by simp) (by simp) rfl rfl rfl (by decide)

/-- C2 (amended): when tools have been used and the step counter has
reached 3, the loop halts appending the fixed canned answer
`innerBoundStr` — the same constant for every configuration, query and
transcript, hence not derived from the most recent successful ToolResult. -/
theorem C2_forced_inner_bound (cfg : LoopCfg) (max_steps fuel : Nat) (st : LoopSt)
    (hstep : st.step_count < max_steps)
    (hsc : 0 < st.step_count)
    (hlast : lastIsFinalAnswer st.messages = false)
    (htools : st.tools_used = true)
    (h3 : 3 ≤ st.step_count) :
    go cfg max_steps (fuel + 1) st
      = { st with
          messages := st.messages ++ [Msg.ai innerBoundStr []],
          iters := st.iters + 1 }
    ∧ containsSub "1035" innerBoundStr = true :=
  ⟨go_halt hstep (runStep_innerBound hsc hlast htools h3), rfl⟩

/-- Decode table for the C2 counterexample run. -/
def cfgC2decode : String → Except String LLMResponse := fun s =>
  if s = "add33" then
    Except.ok { thought := "I will add.",
                tool_calls := [⟨"add_numbers", Json.obj [("a", Json.int 3), ("b", Json.int 3)]⟩],
                response := "" }
  else Except.error "Expecting value: line 1 column 1 (char 0)"

/-- Configuration for the C2 counterexample run: the model requests
`add_numbers(3, 3)` on every turn; `dumps`/`loads` agree with Python's
`json` module on the one value they are applied to. -/
def cfgC2 : LoopCfg :=
  { oracle := fun _ _ => Except.ok "add33",
    decode := cfgC2decode,
    dumps := fun _ => "\x7b\x22a\x22: 3, \x22b\x22: 3\x7d",
    loads := fun s =>
      if s = "\x7b\x22a\x22: 3, \x22b\x22: 3\x7d" then
        Except.ok (Json.obj [("a", Json.int 3), ("b", Json.int 3)])
      else Except.error "Expecting value: line 1 column 1 (char 0)" }

/-- Counterexample for C2 as stated: in a run whose last successful
ToolResult is `add_numbers(3, 3) = 6`, the forced answer appended at the
inner round bound is the fixed 23x45 string, which contains neither the
result value "6" nor the tool's explanation — it is not built from the
most recent successful ToolResult. -/
theorem C2_counterexample :
    (run_agent cfgC2 "add 3 and 3").getLast? = some (Msg.ai innerBoundStr [])
    ∧ lastSuccessToolContent (run_agent cfgC2 "add 3 and 3")
        = some "\x7b\x27result\x27: 6, \x27explanation\x27: \x27The sum of 3 and 3 is 6\x27\x7d"
    ∧ containsSub "6" innerBoundStr = false
    ∧ containsSub "The sum of 3 and 3 is 6" innerBoundStr = false :=
  ⟨rfl, rfl, rfl, rfl⟩

/-- Witness for the amended C2 at a concrete state. -/
theorem C2_forced_inner_bound_witness :
    go cfgC2 5 2 ⟨[Msg.human "q", explicitHintMsg], 3, true, 0⟩
      = { messages := [Msg.human "q", explicitHintMsg] ++ [Msg.ai innerBoundStr []],
          step_count := 3, tools_used := true, iters := 1 }
    ∧ containsSub "1035" innerBoundStr = true :=
  C2_forced_inner_bound cfgC2 5 1 ⟨[Msg.human "q", explicitHintMsg], 3, true, 0⟩
    (by decide) (by decide) rfl rfl (by decide)

/-- C5 (amended): within one tool round, the ToolResultMessages correspond
one-to-one and in order to the tool requests of the round's ModelMessage —
the i-th result carries the i-th request's id — and the request ids of a
round are `call_0 .. call_{n-1}`, restarting from `call_0` every round
(hence ids are not unique across a multi-round transcript). -/
theorem C5_round_ids (loads : String → Except String Json)
    (dumps : Json → String) (tcs : List ToolCall) :
    (toolResponses loads (toolCallRecs dumps tcs)).map msgToolId
      = (toolCallRecs dumps tcs).map ToolCallRec.id
    ∧ (toolCallRecs dumps tcs).map ToolCallRec.id
      = (List.range tcs.length).map (fun i => "call_" ++ toString i) :=
  ⟨toolResponses_ids loads (toolCallRecs dumps tcs), toolCallRecs_ids dumps tcs⟩

/-- Decode table for the C5 counterexample run. -/
def cfgC5decode : String → Except String LLMResponse := fun s =>
  if s = "mul23" then
    Except.ok { thought := "I will multiply.",
                tool_calls := [⟨"multiply_numbers", Json.obj [("a", Json.int 2), ("b", Json.int 3)]⟩],
                response := "" }
  else Except.error "Expecting value: line 1 column 1 (char 0)"

/-- Configuration for the C5 counterexample run: the model requests
`multiply_numbers(2, 3)` on every turn, producing several tool rounds. -/
def cfgC5 : LoopCfg :=
  { oracle := fun _ _ => Except.ok "mul23",
    decode := cfgC5decode,
    dumps := fun _ => "\x7b\x22a\x22: 2, \x22b\x22: 3\x7d",
    loads := fun s =>
      if s = "\x7b\x22a\x22: 2, \x22b\x22: 3\x7d" then
        Except.ok (Json.obj [("a", Json.int 2), ("b", Json.int 3)])
      else Except.error "Expecting value: line 1 column 1 (char 0)" }

/-- Counterexample for C5 as stated: a reachable transcript whose three
ToolResultMessages all carry the request id "call_0" — request ids are
not unique across rounds, and a result does not match exactly one prior
request. -/
theorem C5_counterexample :
    (run_agent cfgC5 "what is 2 times 3?").filterMap toolIdOf
      = ["call_0", "call_0", "call_0"]
    ∧ ¬ ((run_agent cfgC5 "what is 2 times 3?").filterMap toolIdOf).Nodup :=
  ⟨rfl, by decide⟩

/-- C7: the loop performs at most `max_steps` iterations, and whenever the
step counter reaches the configured maximum the returned transcript ends
with the forced, non-empty final answer — the function returns normally. -/
theorem C7_termination_bound (cfg : LoopCfg) (max_steps : Nat) (messages : List Msg) :
    (go cfg max_steps max_steps ⟨messages, 0, false, 0⟩).iters ≤ max_steps
    ∧ (max_steps ≤ (go cfg max_steps max_steps ⟨messages, 0, false, 0⟩).step_count →
        run_conversation cfg max_steps messages
          = (go cfg max_steps max_steps ⟨messages, 0, false, 0⟩).messages
            ++ [Msg.ai maxStepsStr []]
        ∧ maxStepsStr ≠ "") := by
  constructor
  · have h := go_iters_le cfg max_steps max_steps ⟨messages, 0, false, 0⟩
    simpa using h
  · intro h
    refine ⟨?_, by decide⟩
    unfold run_conversation
    rw [if_pos h]

/-- Configuration whose model query always raises. -/
def cfgErr : LoopCfg :=
  { oracle := fun _ _ => Except.error "connection refused",
    decode := fun _ => Except.error "unused",
    dumps := fun _ => "",
    loads := fun _ => Except.error "unused" }

/-- Witness for C7 at a concrete run that exhausts the step limit. -/
theorem C7_termination_bound_witness :
    (go cfgErr 1 1 ⟨[Msg.human "hi"], 0, false, 0⟩).iters ≤ 1
    ∧ (run_conversation cfgErr 1 [Msg.human "hi"]
        = (go cfgErr 1 1 ⟨[Msg.human "hi"], 0, false, 0⟩).messages
          ++ [Msg.ai maxStepsStr []]
      ∧ maxStepsStr ≠ "") :=
  ⟨(C7_termination_bound cfgErr 1 [Msg.human "hi"]).1,
   (C7_termination_bound cfgErr 1 [Msg.human "hi"]).2 (by decide)⟩

/-- C8: a decision carrying both a non-empty response text and a non-empty
tool-call list takes the tool path — the loop appends the ModelMessage
with its requests, the dispatched ToolResults and the steering hint, marks
tools as used, and continues instead of finalizing in that step. -/
theorem C8_tool_calls_win (cfg : LoopCfg) (max_steps fuel : Nat) (st : LoopSt)
    (content : String) (r : LLMResponse)
    (hstep : st.step_count < max_steps)
    (hc1 : ¬ (0 < st.step_count ∧ lastIsFinalAnswer st.messages = true))
    (hc2 : ¬ (0 < st.step_count ∧ st.tools_used = true ∧ 3 ≤ st.step_count))
    (horacle : cfg.oracle st.step_count (temp_messages st) = Except.ok content)
    (hdecode : cfg.decode (extractPayload content) = Except.ok r)
    (_hresp : r.response ≠ "")
    (htc : r.tool_calls.isEmpty = false) :
    go cfg max_steps (fuel + 1) st
      = go cfg max_steps fuel
          { st with
            messages := st.messages
              ++ [Msg.ai r.thought (toolCallRecs cfg.dumps r.tool_calls)]
              ++ toolResponses cfg.loads (toolCallRecs cfg.dumps r.tool_calls)
              ++ [explicitHintMsg],
            step_count := st.step_count + 1,
            tools_used := true,
            iters := st.iters + 1 } :=
  go_next hstep (runStep_toolPath hc1 hc2 horacle hdecode htc)

/-- Decode table for the C8 witness run: the decision carries both a
non-empty response and a tool call. -/
def cfgC8decode : String → Except String LLMResponse := fun s =>
  if s = "both" then
    Except.ok { thought := "Adding first.",
                tool_calls := [⟨"add_numbers", Json.obj [("a", Json.int 1), ("b", Json.int 2)]⟩],
                response := "The answer is 3." }
  else Except.error "Expecting value: line 1 column 1 (char 0)"

/-- Configuration for the C8 witness run. -/
def cfgC8 : LoopCfg :=
  { oracle := fun _ _ => Except.ok "both",
    decode := cfgC8decode,
    dumps := fun _ => "\x7b\x22a\x22: 1, \x22b\x22: 2\x7d",
    loads := fun s =>
      if s = "\x7b\x22a\x22: 1, \x22b\x22: 2\x7d" then
        Except.ok (Json.obj [("a", Json.int 1), ("b", Json.int 2)])
      else Except.error "Expecting value: line 1 column 1 (char 0)" }

/-- Witness for C8 at a concrete ambivalent decision. -/
theorem C8_tool_calls_win_witness :
    go cfgC8 5 (4 + 1) ⟨[Msg.human "one plus two?"], 0, false, 0⟩
      = go cfgC8 5 4
          { messages :=
              [Msg.human "one plus two?",
               Msg.ai "Adding first."
                 [⟨"call_0", "function", "add_numbers", "\x7b\x22a\x22: 1, \x22b\x22: 2\x7d"⟩],
               Msg.tool "\x7b\x27result\x27: 3, \x27explanation\x27: \x27The sum of 1 and 2 is 3\x27\x7d"
                 "add_numbers" "call_0",
               explicitHintMsg],
            step_count := 1, tools_used := true, iters := 1 } := by
  have h := C8_tool_calls_win cfgC8 5 4 ⟨[Msg.human "one plus two?"], 0, false, 0⟩
    "both"
    { thought := "Adding first.",
      tool_calls := [⟨"add_numbers", Json.obj [("a", Json.int 1), ("b", Json.int 2)]⟩],
      response := "The answer is 3." }
    (by decide) (by simp) (by simp) rfl (by rfl) (by decide) rfl
  exact h

/-- C9: the transcript is append-only — the initial messages are a prefix
of the returned transcript — and the transient pre-query steering hint is
never among the appended entries, although it is part of the model's input
for every turn in which tools have been used. -/
theorem C9_append_only (cfg : LoopCfg) (max_steps : Nat) (messages : List Msg) :
    (∃ tail, run_conversation cfg max_steps messages = messages ++ tail
        ∧ preQueryHintMsg ∉ tail)
    ∧ (∀ st : LoopSt, st.tools_used = true →
        temp_messages st = st.messages ++ [preQueryHintMsg]) := by
  constructor
  · obtain ⟨t, ht, hm⟩ := go_prefix cfg max_steps max_steps ⟨messages, 0, false, 0⟩
    dsimp only at ht
    by_cases h : max_steps ≤ (go cfg max_steps max_steps ⟨messages, 0, false, 0⟩).step_count
    · refine ⟨t ++ [Msg.ai maxStepsStr []], ?_, ?_⟩
      · unfold run_conversation
        rw [if_pos h, ht, List.append_assoc]
      · intro hmem
        rcases List.mem_append.mp hmem with h' | h'
        · exact hm h'
        · simp [preQueryHintMsg] at h'
    · refine ⟨t, ?_, hm⟩
      unfold run_conversation
      rw [if_neg h, ht]
  · intro st hst
    unfold temp_messages
    rw [if_pos hst]

/-- Witness for C9 at a concrete run and a concrete tools-used state. -/
theorem C9_append_only_witness :
    (∃ tail, run_conversation cfgErr 1 [Msg.human "hi"] = [Msg.human "hi"] ++ tail
        ∧ preQueryHintMsg ∉ tail)
    ∧ temp_messages ⟨[Msg.human "hi"], 1, true, 0⟩
        = [Msg.human "hi"] ++ [preQueryHintMsg] :=
  ⟨(C9_append_only cfgErr 1 [Msg.human "hi"]).1,
   (C9_append_only cfgErr 1 [Msg.human "hi"]).2 ⟨[Msg.human "hi"], 1, true, 0⟩ rfl⟩

/-- C10: the four degraded/canned answer paths — parser-failure fallback,
inner-round-bound forced answer, model-query-exception forced answer, and
step-limit forced answer — each produce a fixed string asserting that
multiplying 23 and 45 gives 1035, independent of the user's query and of
the transcript. -/
theorem C10_canned_answers :
    (∀ (decode : String → Except String LLMResponse) (content e : String),
        decode (extractPayload content) = Except.error e →
        parse_llm_response decode content = fallbackResponse)
    ∧ containsSub "multiplying 23 and 45 is 1035" fallbackResponse.response = true
    ∧ (∀ (cfg : LoopCfg) (max_steps fuel : Nat) (st : LoopSt),
        st.step_count < max_steps → 0 < st.step_count →
        lastIsFinalAnswer st.messages = false → st.tools_used = true →
        3 ≤ st.step_count →
        go cfg max_steps (fuel + 1) st
          = { st with
              messages := st.messages ++ [Msg.ai innerBoundStr []],
              iters := st.iters + 1 })
    ∧ containsSub "multiplying 23 and 45 is 1035" innerBoundStr = true
    ∧ (∀ (cfg : LoopCfg) (max_steps fuel : Nat) (st : LoopSt) (e : String),
        st.step_count < max_steps →
        ¬ (0 < st.step_count ∧ lastIsFinalAnswer st.messages = true) →
        ¬ (0 < st.step_count ∧ st.tools_used = true ∧ 3 ≤ st.step_count) →
        cfg.oracle st.step_count (temp_messages st) = Except.error e →
        2 ≤ st.step_count →
        go cfg max_steps (fuel + 1) st
          = { st with
              messages := st.messages ++ [Msg.ai queryErrStr []],
              iters := st.iters + 1 })
    ∧ containsSub "multiplying 23 and 45 is 1035" queryErrStr = true
    ∧ (∀ (cfg : LoopCfg) (max_steps : Nat) (messages : List Msg),
        max_steps ≤ (go cfg max_steps max_steps ⟨messages, 0, false, 0⟩).step_count →
        run_conversation cfg max_steps messages
          = (go cfg max_steps max_steps ⟨messages, 0, false, 0⟩).messages
            ++ [Msg.ai maxStepsStr []])
    ∧ containsSub "multiplying 23 and 45 is 1035" maxStepsStr = true := by
  refine ⟨?_, rfl, ?_, rfl, ?_, rfl, ?_, rfl⟩
  · intro decode content e h
    simp [parse_llm_response, h]
  · intro cfg max_steps fuel st hstep hsc hlast htools h3
    exact go_halt hstep (runStep_innerBound hsc hlast htools h3)
  · intro cfg max_steps fuel st e hstep hc1 hc2 horacle h2
    exact go_halt hstep (runStep_queryErr hc1 hc2 horacle h2)
  · intro cfg max_steps messages h
    unfold run_conversation
    rw [if_pos h]

/-- Witness for C10: each canned path exercised at a concrete input. -/
theorem C10_canned_answers_witness :
    parse_llm_response (fun _ => Except.error "boom") "zzz" = fallbackResponse
    ∧ go cfgErr 5 (1 + 1) ⟨[Msg.human "q", explicitHintMsg], 3, true, 0⟩
        = { messages := [Msg.human "q", explicitHintMsg, Msg.ai innerBoundStr []],
            step_count := 3, tools_used := true, iters := 1 }
    ∧ go cfgErr 5 (1 + 1) ⟨[Msg.human "q"], 2, false, 0⟩
        = { messages := [Msg.human "q", Msg.ai queryErrStr []],
            step_count := 2, tools_used := false, iters := 1 }
    ∧ run_conversation cfgErr 1 [Msg.human "hi"]
        = (go cfgErr 1 1 ⟨[Msg.human "hi"], 0, false, 0⟩).messages
          ++ [Msg.ai maxStepsStr []] := by
  refine ⟨C10_canned_answers.1 (fun _ => Except.error "boom") "zzz" "boom" rfl, ?_, ?_,
    C10_canned_answers.2.2.2.2.2.2.1 cfgErr 1 [Msg.human "hi"] (by decide)⟩
  · exact C10_canned_answers.2.2.1 cfgErr 5 1 ⟨[Msg.human "q", explicitHintMsg], 3, true, 0⟩
      (by decide) (by decide) rfl rfl (by decide)
  · exact C10_canned_answers.2.2.2.2.1 cfgErr 5 1 ⟨[Msg.human "q"], 2, false, 0⟩
      "connection refused" (by decide) (by decide) (by decide) rfl (by decide)

end Claims

end MathAgent
